import Mathlib

set_option linter.unusedVariables false

/-!
Verification of the TuneGAN-Deploy pipeline (`src/app.py`).

The app is a Streamlit page that forwards a text prompt and duration to a
pretrained MusicGen model, saves the returned waveform to a WAV file and
surfaces the bytes plus a base64 download link.  We embed the repository's
own logic (`load_model`, `generate_music`, `save_waveform`, `download_link`
and the Generate-page button branch) as pure Lean functions over an explicit
process state.  External collaborators (the pretrained model, the audio
codec, the input widget) are out of the repository's scope; where a claim
depends on them they are either taken as parameters constrained by
hypotheses or modelled from the spec, as documented on each definition.
-/

namespace TuneGAN

/-- Generation parameters, as set by `model.set_generation_params` in
`generate_music` (`src/app.py` line 75). -/
structure GenParams where
  use_sampling : Bool
  top_k : Nat
  duration : Nat
deriving DecidableEq, Repr

/-- A handle to a pretrained model: the checkpoint name it was loaded from
and the generation parameters currently set on the instance (`none` until
`set_generation_params` is first called). -/
structure Model where
  name : String
  params : Option GenParams
deriving DecidableEq, Repr

/-- The `MusicGen.get_pretrained` call: loads a fresh model instance for a checkpoint
name; no generation parameters are set yet. -/
def get_pretrained (name : String) : Model :=
  { name := name, params := none }

/-- The call `model.set_generation_params(use_sampling=..., top_k=..., duration=...)`:
mutates the instance's generation parameters (`src/app.py` line 75). -/
def set_generation_params (m : Model) (us : Bool) (tk : Nat) (dur : Nat) : Model :=
  { m with params := some { use_sampling := us, top_k := tk, duration := dur } }

/-- A waveform as returned by `model.generate(...)[i]`: a sample buffer
(channels flattened away; only the sample count matters to the claims). -/
structure Waveform where
  samples : List Nat
deriving DecidableEq, Repr

/-- The behaviour of the external `model.generate`: given the model instance
(whose parameters were just set) and a batch of prompts, returns a batch of
waveforms.  The pretrained network is out of scope, so theorems take the
oracle as a parameter, constrained by hypotheses where needed. -/
def GenOracle : Type :=
  Model → List String → List Waveform

/-- The external guarantee `generate` is used under: one waveform comes back
per prompt in the batch. -/
def batchComplete (g : GenOracle) : Prop :=
  ∀ m ps, (g m ps).length = ps.length

/-- The duration currently set on a model instance (0 if parameters were
never set). -/
def modelDuration (m : Model) : Nat :=
  match m.params with
  | some p => p.duration
  | none => 0

/-- A file system: association of paths to byte contents (most recent write
first). -/
abbrev FileSys : Type :=
  List (String × List Nat)

/-- Writing a file: the new contents replace any prior entry at that path. -/
def writeFile (fs : FileSys) (path : String) (data : List Nat) : FileSys :=
  (path, data) :: fs.filter (fun e => e.1 ≠ path)

/-- Reading a file's bytes (`Path.read_bytes`); `none` when the file does not
exist (the read raises). -/
def readFile (fs : FileSys) (path : String) : Option (List Nat) :=
  (fs.find? (fun e => e.1 == path)).map (fun e => e.2)

/-- Process-wide state: the `st.cache_resource` cache backing `load_model`,
a counter of how many expensive pretrained loads were performed, and the
local file system holding `audio_output`. -/
structure ProcState where
  cache : Option Model
  load_count : Nat
  files : FileSys
deriving DecidableEq

/-- A fresh process: nothing cached, no loads performed, no files. -/
def initState : ProcState :=
  { cache := none, load_count := 0, files := [] }

/-- The function `load_model` (`src/app.py` lines 69-71): decorated with
`st.cache_resource`, so the first call performs
`MusicGen.get_pretrained("facebook/musicgen-small")` and caches the
instance; later calls return the cached instance.  Because Python caches the
object reference, in-place mutations of the instance are visible through the
cache, which is why the cache stores the current `Model` value. -/
def load_model (s : ProcState) : Model × ProcState :=
  match s.cache with
  | some m => (m, s)
  | none =>
      let m := get_pretrained "facebook/musicgen-small"
      (m, { s with cache := some m, load_count := s.load_count + 1 })

/-- The function `generate_music` (`src/app.py` lines 73-77): obtains the cached model,
sets `use_sampling=True, top_k=250, duration=duration` on it (an in-place
mutation, reflected into the cache), then requests generation for the
single-element batch `[description]` and takes element `0` of the returned
batch (`none` models the `IndexError` if the batch came back empty). -/
def generate_music (g : GenOracle) (s : ProcState) (description : String)
    (duration : Nat) : Option Waveform × ProcState :=
  let ms := load_model s
  let m := set_generation_params ms.1 true 250 duration
  let s1 : ProcState := { ms.2 with cache := some m }
  ((g m [description]).head?, s1)

/-- The byte encoder used by the external `torchaudio.save`.  The codec
internals are out of scope; theorems about file contents either take the
encoder as a parameter or use the concrete model `wavBytes` below. -/
def WavEncoder : Type :=
  Waveform → Nat → List Nat

/-- Modelled from the spec: `torchaudio.save` writes the waveform as a WAV
file at the given sample rate.  The codec itself is out of scope
("low-level audio codec/file-writing routines"); we model the file as a
header recording the sample rate followed by the samples, which preserves
exactly the two attributes the spec speaks about (sample rate and
duration). -/
def wavBytes (w : Waveform) (sr : Nat) : List Nat :=
  sr :: w.samples

/-- The output path used by `save_waveform`:
`AUDIO_DIR / f"audio_{idx}.wav"` with `AUDIO_DIR = Path("audio_output")`
(`src/app.py` lines 66 and 80). -/
def audioPath (idx : Nat) : String :=
  "audio_output/audio_" ++ toString idx ++ ".wav"

/-- The function `save_waveform` (`src/app.py` lines 79-82): builds the path from the
index, writes the waveform there via `torchaudio.save` (overwriting any
existing file) and returns the path.  The Python defaults `idx=0` and
`sr=32_000` are applied explicitly at the call site in the page code. -/
def save_waveform (enc : WavEncoder) (s : ProcState) (wave : Waveform)
    (idx : Nat) (sr : Nat) : String × ProcState :=
  let path := audioPath idx
  (path, { s with files := writeFile s.files path (enc wave sr) })

/-- The base64 alphabet used by `base64.b64encode` (RFC 4648 standard
alphabet). -/
def b64Alphabet : List Char :=
  "ABCDEFGHIJKLMNOPQRSTUVWXYZabcdefghijklmnopqrstuvwxyz0123456789+/".toList

/-- The character for a six-bit group. -/
def b64Char (n : Nat) : Char :=
  b64Alphabet.getD n 'A'

/-- The six-bit value of an alphabet character (used by decoding). -/
def b64Index (c : Char) : Nat :=
  b64Alphabet.indexOf c

/-- Python's `base64.b64encode` over a byte list: each group of three bytes becomes
four alphabet characters; a final group of one or two bytes is padded with
`=` (RFC 4648, the encoding Python's `base64.b64encode` implements). -/
def b64Encode : List Nat → List Char
  | [] => []
  | [a] => [b64Char (a / 4), b64Char (a % 4 * 16), '=', '=']
  | [a, b] => [b64Char (a / 4), b64Char (a % 4 * 16 + b / 16), b64Char (b % 16 * 4), '=']
  | a :: b :: c :: rest =>
      b64Char (a / 4) :: b64Char (a % 4 * 16 + b / 16) ::
        b64Char (b % 16 * 4 + c / 64) :: b64Char (c % 64) :: b64Encode rest

/-- Decoding one four-character base64 group, honouring `=` padding. -/
def b64DecodeQuad (p q r t : Char) : List Nat :=
  if t = '=' then
    if r = '=' then
      [b64Index p * 4 + b64Index q / 16]
    else
      [b64Index p * 4 + b64Index q / 16, b64Index q % 16 * 16 + b64Index r / 4]
  else
    [b64Index p * 4 + b64Index q / 16, b64Index q % 16 * 16 + b64Index r / 4,
      b64Index r % 4 * 64 + b64Index t]

/-- Python's `base64.b64decode` over the character list: four characters at a time. -/
def b64Decode : List Char → List Nat
  | p :: q :: r :: t :: rest => b64DecodeQuad p q r t ++ b64Decode rest
  | _ => []

/-- Python's `str.strip()` with no argument: drop leading and trailing
whitespace. -/
def pyStrip (s : String) : String :=
  String.mk
    (((s.toList.dropWhile Char.isWhitespace).reverse.dropWhile
        Char.isWhitespace).reverse)

/-- Python's `Path.name`: the final component of a path (the characters after the
last `/`). -/
def pathName (p : String) : String :=
  String.mk ((p.toList.reverse.takeWhile (fun c => c ≠ '/')).reverse)

/-- The function `download_link` (`src/app.py` lines 84-89): reads the file's bytes,
base64-encodes them, and returns the HTML anchor whose `href` is an
`audio/wav` data URI and whose `download` attribute is the file's name.
`none` models the raise when the file cannot be read. -/
def download_link (fs : FileSys) (file_path : String) (label : String) :
    Option String :=
  (readFile fs file_path).map (fun data =>
    let b64 := String.mk (b64Encode data)
    "\n        <a href=\"data:audio/wav;base64," ++ b64 ++ "\" download=\"" ++
      pathName file_path ++ "\">" ++ label ++ " ⬇</a>\n    ")

/-- What the Generate page does with one button press. -/
inductive UIOutcome where
  /-- The `st.warning(...)` call followed by `st.stop()`: the empty-prompt rejection. -/
  | warned : UIOutcome
  /-- An uncaught exception propagated out of the pipeline. -/
  | failed : UIOutcome
  /-- Success: the bytes fed to `st.audio` and the download-link HTML. -/
  | played : List Nat → String → UIOutcome
deriving DecidableEq

/-- The `generate_btn` branch of the Generate page (`src/app.py` lines
126-144): reject a prompt that strips to empty (warning + stop, nothing else
happens), otherwise run `generate_music`, save with the default index `0`
and sample rate `32_000`, read the file's bytes back for `st.audio`, and
build the download link from the same file. -/
def generate_page (g : GenOracle) (enc : WavEncoder) (s : ProcState)
    (description : String) (duration : Nat) : UIOutcome × ProcState :=
  if pyStrip description = "" then
    (UIOutcome.warned, s)
  else
    match generate_music g s description duration with
    | (none, s1) => (UIOutcome.failed, s1)
    | (some w, s1) =>
        match readFile (save_waveform enc s1 w 0 32000).2.files
            (save_waveform enc s1 w 0 32000).1,
          download_link (save_waveform enc s1 w 0 32000).2.files
            (save_waveform enc s1 w 0 32000).1 "Save .wav" with
        | some bytes, some link =>
            (UIOutcome.played bytes link, (save_waveform enc s1 w 0 32000).2)
        | _, _ => (UIOutcome.failed, (save_waveform enc s1 w 0 32000).2)

/-- Running a sequence of Generate-page requests (prompt, duration) through
one process. -/
def run_requests (g : GenOracle) (enc : WavEncoder) :
    List (String × Nat) → ProcState → ProcState
  | [], s => s
  | (d, dur) :: rest, s => run_requests g enc rest (generate_page g enc s d dur).2

/-- Modelled from the spec: the Streamlit bounded number-input widget
`st.number_input("Duration (s)", 1, 30, 10)` (`src/app.py` line 122).  The
widget itself is external ("page rendering/styling and widget layout" is out
of scope); per the spec the input control bounds the value to
[min, max] and rejects out-of-range values before they reach generation. -/
def number_input (minVal maxVal value : Int) : Option Int :=
  if minVal ≤ value ∧ value ≤ maxVal then some value else none

/-- The duration control of the Generate page: bounds [1, 30]. -/
def duration_input (value : Int) : Option Int :=
  number_input 1 30 value

/-- The duration contract the pipeline relies on from the external model,
per the spec: each generated waveform has the parameterised duration at the
32 kHz sample rate.  The pretrained network is out of scope, so theorems
that speak about output duration assume this of the oracle. -/
def durationFaithful (g : GenOracle) : Prop :=
  ∀ m ps w, w ∈ g m ps → w.samples.length = modelDuration m * 32000

/-- Invariant on the output directory: every file sits at the index-0 path
and at most one file exists. -/
def onlyIndexZero (fs : FileSys) : Prop :=
  (∀ e ∈ fs, e.1 = audioPath 0) ∧ fs.length ≤ 1

/-- Oracle for concrete witnesses: one empty waveform per prompt. -/
def oracleTiny : GenOracle :=
  fun _ ps => ps.map (fun _ => { samples := [] })

/-- Witness oracle honouring the duration parameter: one silent waveform of
the parameterised length per prompt. -/
def oracleDur : GenOracle :=
  fun m ps => ps.map (fun _ => { samples := List.replicate (modelDuration m * 32000) 0 })

/-- Constant encoder for concrete witnesses. -/
def encConst : WavEncoder :=
  fun _ _ => [77]

/-- The model handle after the concrete witness run (loaded checkpoint with
parameters set for duration 10). -/
def modelW : Model :=
  { name := "facebook/musicgen-small",
    params := some { use_sampling := true, top_k := 250, duration := 10 } }

/-- The process state after the concrete witness run of the Generate page
with oracle `oracleTiny` and encoder `encConst`. -/
def stateW : ProcState :=
  { cache := some modelW, load_count := 1,
    files := [("audio_output/audio_0.wav", [77])] }

/-- The download link produced by that witness run. -/
def linkW : String :=
  "\n        <a href=\"data:audio/wav;base64,TQ==\" download=\"audio_0.wav\">Save .wav ⬇</a>\n    "

/-- Injective encoder for concrete witnesses: the raw samples. -/
def encId : WavEncoder :=
  fun w _ => w.samples

/-! ## Helper lemmas -/

/-- Decoding inverts the alphabet on six-bit values. -/
theorem b64Index_b64Char : ∀ n < 64, b64Index (b64Char n) = n := by decide

/-- Alphabet characters are never the padding character. -/
theorem b64Char_ne_pad : ∀ n < 64, b64Char n ≠ '=' := by decide

/-- RFC 4648 round trip: decoding an encoded byte list restores it. -/
theorem b64_roundtrip : ∀ bs : List Nat, (∀ x ∈ bs, x < 256) →
    b64Decode (b64Encode bs) = bs
  | [], _ => rfl
  | [a], h => by
      have ha : a < 256 := h a (by simp)
      have h1 : b64Index (b64Char (a / 4)) = a / 4 :=
        b64Index_b64Char _ (by omega)
      have h2 : b64Index (b64Char (a % 4 * 16)) = a % 4 * 16 :=
        b64Index_b64Char _ (by omega)
      have e1 : a / 4 * 4 + a % 4 * 16 / 16 = a := by omega
      simp only [b64Encode, b64Decode, b64DecodeQuad, if_pos, h1, h2,
        List.append_nil, e1]
  | [a, b], h => by
      have ha : a < 256 := h a (by simp)
      have hb : b < 256 := h b (by simp)
      have h1 : b64Index (b64Char (a / 4)) = a / 4 :=
        b64Index_b64Char _ (by omega)
      have h2 : b64Index (b64Char (a % 4 * 16 + b / 16)) = a % 4 * 16 + b / 16 :=
        b64Index_b64Char _ (by omega)
      have h3 : b64Index (b64Char (b % 16 * 4)) = b % 16 * 4 :=
        b64Index_b64Char _ (by omega)
      have hr : b64Char (b % 16 * 4) ≠ '=' := b64Char_ne_pad _ (by omega)
      have e1 : a / 4 * 4 + (a % 4 * 16 + b / 16) / 16 = a := by omega
      have e2 : (a % 4 * 16 + b / 16) % 16 * 16 + b % 16 * 4 / 4 = b := by omega
      simp only [b64Encode, b64Decode, b64DecodeQuad, if_pos, if_neg hr, h1, h2,
        h3, List.append_nil, e1, e2]
  | a :: b :: c :: rest, h => by
      have ha : a < 256 := h a (by simp)
      have hb : b < 256 := h b (by simp)
      have hc : c < 256 := h c (by simp)
      have ih : b64Decode (b64Encode rest) = rest :=
        b64_roundtrip rest (fun x hx => h x (by simp [hx]))
      have h1 : b64Index (b64Char (a / 4)) = a / 4 :=
        b64Index_b64Char _ (by omega)
      have h2 : b64Index (b64Char (a % 4 * 16 + b / 16)) = a % 4 * 16 + b / 16 :=
        b64Index_b64Char _ (by omega)
      have h3 : b64Index (b64Char (b % 16 * 4 + c / 64)) = b % 16 * 4 + c / 64 :=
        b64Index_b64Char _ (by omega)
      have h4 : b64Index (b64Char (c % 64)) = c % 64 :=
        b64Index_b64Char _ (by omega)
      have ht : b64Char (c % 64) ≠ '=' := b64Char_ne_pad _ (by omega)
      have e1 : a / 4 * 4 + (a % 4 * 16 + b / 16) / 16 = a := by omega
      have e2 : (a % 4 * 16 + b / 16) % 16 * 16 + (b % 16 * 4 + c / 64) / 4 = b := by
        omega
      have e3 : (b % 16 * 4 + c / 64) % 4 * 64 + c % 64 = c := by omega
      simp only [b64Encode, b64Decode, b64DecodeQuad, if_neg ht, h1, h2, h3, h4,
        List.cons_append, List.nil_append, e1, e2, e3, ih]

/-- The generate oracle constrained only to return one waveform per prompt:
a useful property split off `batchComplete` for singleton batches. -/
theorem batchComplete_singleton {g : GenOracle} (hg : batchComplete g)
    (m : Model) (p : String) : ∃ w, g m [p] = [w] := by
  have h := hg m [p]
  match hw : g m [p] with
  | [] => simp [hw] at h
  | [w] => exact ⟨w, rfl⟩
  | w :: w' :: l => simp [hw] at h

theorem encId_injective : Function.Injective (fun w => encId w 32000) := by
  intro w1 w2 h
  cases w1
  cases w2
  simpa [encId] using h

theorem oracleTiny_batchComplete : batchComplete oracleTiny := by
  intro m ps
  simp [oracleTiny]

theorem oracleDur_batchComplete : batchComplete oracleDur := by
  intro m ps
  simp [oracleDur]

/-! ## Claim theorems -/

/-- C1: for every non-empty prompt and duration, `generate_music` sets the
generation parameters to sampling enabled with top-k 250 and the input
duration on the model it uses, requests generation for the single-element
batch `[description]`, and returns exactly the single waveform of that
batch (given the external guarantee of one waveform per prompt; without it
the call fails). -/
theorem generate_music_one_waveform (g : GenOracle) (s : ProcState)
    (description : String) (duration : Nat)
    (hne : pyStrip description ≠ "") (hg : batchComplete g) :
    ∃ m w,
      (generate_music g s description duration).2.cache = some m ∧
      m.params = some { use_sampling := true, top_k := 250, duration := duration } ∧
      g m [description] = [w] ∧
      (generate_music g s description duration).1 = some w := by
  obtain ⟨w, hw⟩ :=
    batchComplete_singleton hg
      (set_generation_params (load_model s).1 true 250 duration) description
  refine ⟨set_generation_params (load_model s).1 true 250 duration, w, ?_, rfl, hw, ?_⟩
  · simp [generate_music]
  · simp [generate_music, hw]

/-- Witness for C1 at the concrete oracle `oracleTiny`, prompt `"piano"`,
duration `10`. -/
theorem generate_music_one_waveform_witness :
    pyStrip "piano" ≠ "" ∧ batchComplete oracleTiny ∧
    ∃ m w,
      (generate_music oracleTiny initState "piano" 10).2.cache = some m ∧
      m.params = some { use_sampling := true, top_k := 250, duration := 10 } ∧
      oracleTiny m ["piano"] = [w] ∧
      (generate_music oracleTiny initState "piano" 10).1 = some w :=
  ⟨by decide, oracleTiny_batchComplete,
    generate_music_one_waveform oracleTiny initState "piano" 10 (by decide)
      oracleTiny_batchComplete⟩

/-- C2: `save_waveform` writes at a path derived solely from the index
(same path whatever the waveform or state), and two sequential saves at the
same index write the same path, the second overwriting the first: the final
contents are the second waveform's bytes and (for an injective encoder and
distinct waveforms) not the first's. -/
theorem save_waveform_overwrite (enc : WavEncoder) (s : ProcState)
    (w1 w2 : Waveform) (idx : Nat)
    (hinj : Function.Injective (fun w => enc w 32000)) (hne : w1 ≠ w2) :
    (∀ (t : ProcState) (w : Waveform) (sr : Nat),
        (save_waveform enc t w idx sr).1 = audioPath idx) ∧
    readFile
        (save_waveform enc (save_waveform enc s w1 idx 32000).2 w2 idx 32000).2.files
        (audioPath idx) = some (enc w2 32000) ∧
    readFile
        (save_waveform enc (save_waveform enc s w1 idx 32000).2 w2 idx 32000).2.files
        (audioPath idx) ≠ some (enc w1 32000) := by
  have hv : readFile
      (save_waveform enc (save_waveform enc s w1 idx 32000).2 w2 idx 32000).2.files
      (audioPath idx) = some (enc w2 32000) := by
    simp [save_waveform, readFile, writeFile]
  refine ⟨fun t w sr => rfl, hv, ?_⟩
  rw [hv]
  intro hcontra
  exact hne (hinj (Option.some.inj hcontra).symm)

/-- Witness for C2 with the sample-faithful encoder `encId` and the distinct
waveforms `[1]` and `[2]` at index `0`. -/
theorem save_waveform_overwrite_witness :
    Function.Injective (fun w => encId w 32000) ∧
    ({ samples := [1] } : Waveform) ≠ { samples := [2] } ∧
    ((∀ (t : ProcState) (w : Waveform) (sr : Nat),
        (save_waveform encId t w 0 sr).1 = audioPath 0) ∧
      readFile
          (save_waveform encId
            (save_waveform encId initState { samples := [1] } 0 32000).2
            { samples := [2] } 0 32000).2.files
          (audioPath 0) = some (encId { samples := [2] } 32000) ∧
      readFile
          (save_waveform encId
            (save_waveform encId initState { samples := [1] } 0 32000).2
            { samples := [2] } 0 32000).2.files
          (audioPath 0) ≠ some (encId { samples := [1] } 32000)) :=
  ⟨encId_injective, by decide,
    save_waveform_overwrite encId initState { samples := [1] } { samples := [2] } 0
      encId_injective (by decide)⟩

/-- C3: a prompt that strips to empty is rejected before anything runs: the
page emits the warning outcome and the process state is returned unchanged,
so no model load, no generation and no file write happen, and nothing is
raised. -/
theorem empty_prompt_no_effect (g : GenOracle) (enc : WavEncoder)
    (s : ProcState) (description : String) (duration : Nat)
    (h : pyStrip description = "") :
    generate_page g enc s description duration = (UIOutcome.warned, s) := by
  simp [generate_page, h]

/-- Witness for C3 at the whitespace-only prompt `"   "`. -/
theorem empty_prompt_no_effect_witness :
    pyStrip "   " = "" ∧
    generate_page oracleTiny encConst initState "   " 10 =
      (UIOutcome.warned, initState) :=
  ⟨by decide,
    empty_prompt_no_effect oracleTiny encConst initState "   " 10 (by decide)⟩

/-- C4: starting from a process that has not loaded yet, the first
`load_model` call performs exactly one expensive load, and the second call
is a no-op: it returns the same cached model instance and the same state
(in particular the load counter does not move again). -/
theorem load_model_cached_idempotent (s : ProcState) (h : s.cache = none) :
    (load_model s).2.load_count = s.load_count + 1 ∧
    load_model (load_model s).2 = ((load_model s).1, (load_model s).2) := by
  simp [load_model, h]

/-- Witness for C4 at the fresh process state. -/
theorem load_model_cached_idempotent_witness :
    initState.cache = none ∧
    ((load_model initState).2.load_count = initState.load_count + 1 ∧
      load_model (load_model initState).2 =
        ((load_model initState).1, (load_model initState).2)) :=
  ⟨rfl, load_model_cached_idempotent initState rfl⟩

/-- C5: the base64 payload round-trips (`decode (encode x) = x` for byte
sequences), and `download_link` embeds exactly the file's bytes as a base64
`audio/wav` data URI in an anchor named after the persisted file. -/
theorem download_link_base64 (fs : FileSys) (path label : String)
    (data : List Nat) (hdata : ∀ x ∈ data, x < 256)
    (hread : readFile fs path = some data) :
    b64Decode (b64Encode data) = data ∧
    download_link fs path label =
      some ("\n        <a href=\"data:audio/wav;base64," ++
        String.mk (b64Encode data) ++ "\" download=\"" ++ pathName path ++
        "\">" ++ label ++ " ⬇</a>\n    ") :=
  ⟨b64_roundtrip data hdata, by simp [download_link, hread]⟩

/-- Witness for C5 at the bytes `[77, 97, 110]` stored at the index-0 path. -/
theorem download_link_base64_witness :
    (∀ x ∈ [77, 97, 110], x < 256) ∧
    readFile [(audioPath 0, [77, 97, 110])] (audioPath 0) = some [77, 97, 110] ∧
    (b64Decode (b64Encode [77, 97, 110]) = [77, 97, 110] ∧
      download_link [(audioPath 0, [77, 97, 110])] (audioPath 0) "Save .wav" =
        some ("\n        <a href=\"data:audio/wav;base64," ++
          String.mk (b64Encode [77, 97, 110]) ++ "\" download=\"" ++
          pathName (audioPath 0) ++ "\">" ++ "Save .wav" ++ " ⬇</a>\n    ")) :=
  ⟨by decide, by decide,
    download_link_base64 [(audioPath 0, [77, 97, 110])] (audioPath 0)
      "Save .wav" [77, 97, 110] (by decide) (by decide)⟩

theorem oracleDur_durationFaithful : durationFaithful oracleDur := by
  intro m ps w hw
  simp only [oracleDur, List.mem_map] at hw
  obtain ⟨p, hp, rfl⟩ := hw
  simp

theorem load_model_files (s : ProcState) : (load_model s).2.files = s.files := by
  unfold load_model
  cases s.cache <;> rfl

theorem generate_music_files (g : GenOracle) (s : ProcState) (d : String)
    (dur : Nat) : (generate_music g s d dur).2.files = s.files := by
  simp [generate_music, load_model_files]

theorem writeFile_onlyIndexZero (fs : FileSys) (data : List Nat)
    (h : onlyIndexZero fs) :
    onlyIndexZero (writeFile fs (audioPath 0) data) := by
  have hfilter : fs.filter (fun e => e.1 ≠ audioPath 0) = [] := by
    rw [List.filter_eq_nil_iff]
    intro e he
    simp [h.1 e he]
  constructor
  · intro e he
    unfold writeFile at he
    rw [hfilter] at he
    rcases List.mem_cons.mp he with hh | hmem
    · rw [hh]
    · simp at hmem
  · unfold writeFile
    rw [hfilter]
    simp

theorem generate_page_files_cases (g : GenOracle) (enc : WavEncoder)
    (s : ProcState) (d : String) (dur : Nat) :
    (generate_page g enc s d dur).2.files = s.files ∨
    ∃ w : Waveform, (generate_page g enc s d dur).2.files =
      writeFile s.files (audioPath 0) (enc w 32000) := by
  unfold generate_page
  by_cases hemp : pyStrip d = ""
  · left
    simp [hemp]
  · rw [if_neg hemp]
    rcases hm : generate_music g s d dur with ⟨o, s1⟩
    have hfiles : s1.files = s.files := by
      rw [← generate_music_files g s d dur, hm]
    cases o with
    | none => left; exact hfiles
    | some w =>
        right
        refine ⟨w, ?_⟩
        have hps : (save_waveform enc s1 w 0 32000).2.files =
            writeFile s.files (audioPath 0) (enc w 32000) := by
          simp [save_waveform, hfiles, audioPath]
        rcases readFile (save_waveform enc s1 w 0 32000).2.files
            (save_waveform enc s1 w 0 32000).1 with _ | bytes <;>
          rcases download_link (save_waveform enc s1 w 0 32000).2.files
              (save_waveform enc s1 w 0 32000).1 "Save .wav" with _ | link <;>
          simpa using hps

theorem generate_page_preserves_onlyIndexZero (g : GenOracle)
    (enc : WavEncoder) (s : ProcState) (d : String) (dur : Nat)
    (h : onlyIndexZero s.files) :
    onlyIndexZero (generate_page g enc s d dur).2.files := by
  rcases generate_page_files_cases g enc s d dur with hcase | ⟨w, hcase⟩
  · rw [hcase]
    exact h
  · rw [hcase]
    exact writeFile_onlyIndexZero s.files (enc w 32000) h

theorem run_requests_onlyIndexZero (g : GenOracle) (enc : WavEncoder)
    (reqs : List (String × Nat)) :
    ∀ s : ProcState, onlyIndexZero s.files →
      onlyIndexZero (run_requests g enc reqs s).files := by
  induction reqs with
  | nil => intro s h; exact h
  | cons r rest ih =>
      intro s h
      obtain ⟨d, dur⟩ := r
      exact ih _ (generate_page_preserves_onlyIndexZero g enc s d dur h)

/-- C6: for a non-empty prompt and a duration in [1, 30], one press of the
Generate button in a fresh process produces exactly one output file, written
at the 32 kHz sample rate, whose sample count is the requested duration
times 32 000 (under the external model's batch and duration contracts, with
the modelled codec `wavBytes`). -/
theorem pipeline_one_file_32kHz (g : GenOracle) (description : String)
    (dur : Nat) (hne : pyStrip description ≠ "") (h1 : 1 ≤ dur)
    (h30 : dur ≤ 30) (hg : batchComplete g) (hd : durationFaithful g) :
    ∃ w : Waveform,
      (generate_page g wavBytes initState description dur).2.files =
        [(audioPath 0, 32000 :: w.samples)] ∧
      w.samples.length = dur * 32000 := by
  obtain ⟨w, hw⟩ := batchComplete_singleton hg
    (set_generation_params (get_pretrained "facebook/musicgen-small") true 250 dur)
    description
  have hm : generate_music g initState description dur =
      (some w,
        { cache := some (set_generation_params
            (get_pretrained "facebook/musicgen-small") true 250 dur),
          load_count := 1, files := [] }) := by
    simp [generate_music, load_model, initState, hw]
  refine ⟨w, ?_, ?_⟩
  · simp [generate_page, hne, hm, save_waveform, writeFile, readFile,
      download_link, wavBytes]
  · have hmem : w ∈ g (set_generation_params
        (get_pretrained "facebook/musicgen-small") true 250 dur)
        [description] := by
      rw [hw]
      exact List.mem_singleton_self w
    have := hd _ _ w hmem
    simpa [modelDuration, set_generation_params] using this

/-- Witness for C6 at the oracle `oracleDur`, prompt `"piano"`, duration
`10`. -/
theorem pipeline_one_file_32kHz_witness :
    pyStrip "piano" ≠ "" ∧ 1 ≤ 10 ∧ 10 ≤ 30 ∧ batchComplete oracleDur ∧
    durationFaithful oracleDur ∧
    ∃ w : Waveform,
      (generate_page oracleDur wavBytes initState "piano" 10).2.files =
        [(audioPath 0, 32000 :: w.samples)] ∧
      w.samples.length = 10 * 32000 :=
  ⟨by decide, by decide, by decide, oracleDur_batchComplete,
    oracleDur_durationFaithful,
    pipeline_one_file_32kHz oracleDur "piano" 10 (by decide) (by decide)
      (by decide) oracleDur_batchComplete oracleDur_durationFaithful⟩

/-- C7: any duration the input control lets through is an integer in
[1, 30], and the out-of-range inputs 0 and 31 are rejected by the control
before reaching generation. -/
theorem duration_input_bounds (v d : Int) (h : duration_input v = some d) :
    (1 ≤ d ∧ d ≤ 30) ∧ duration_input 0 = none ∧ duration_input 31 = none := by
  refine ⟨?_, by decide, by decide⟩
  by_cases hc : 1 ≤ v ∧ v ≤ 30
  · simp only [duration_input, number_input, if_pos hc] at h
    obtain rfl := Option.some.inj h
    exact hc
  · simp only [duration_input, number_input, if_neg hc] at h
    exact Option.noConfusion h

/-- Witness for C7 at the in-range value 10. -/
theorem duration_input_bounds_witness :
    duration_input 10 = some 10 ∧
    ((1 ≤ (10 : Int) ∧ (10 : Int) ≤ 30) ∧ duration_input 0 = none ∧
      duration_input 31 = none) :=
  ⟨by decide, duration_input_bounds 10 10 (by decide)⟩

/-- C8: when the Generate page succeeds, the bytes surfaced to the audio
player are exactly the bytes the just-completed save wrote at the returned
path (the write is complete before the read-back), and the download link is
built from that same file. -/
theorem read_back_after_write (g : GenOracle) (enc : WavEncoder)
    (s : ProcState) (d : String) (dur : Nat) (bytes : List Nat)
    (link : String) (s' : ProcState)
    (h : generate_page g enc s d dur = (UIOutcome.played bytes link, s')) :
    ∃ w : Waveform,
      (generate_music g s d dur).1 = some w ∧
      readFile s'.files (audioPath 0) = some (enc w 32000) ∧
      bytes = enc w 32000 ∧
      download_link s'.files (audioPath 0) "Save .wav" = some link := by
  unfold generate_page at h
  by_cases hemp : pyStrip d = ""
  · rw [if_pos hemp] at h
    exact absurd (congrArg Prod.fst h) (by simp)
  · rw [if_neg hemp] at h
    rcases hm : generate_music g s d dur with ⟨o, s1⟩
    rw [hm] at h
    cases o with
    | none => exact absurd (congrArg Prod.fst h) (by simp)
    | some w =>
        have hread : readFile (save_waveform enc s1 w 0 32000).2.files
            (save_waveform enc s1 w 0 32000).1 = some (enc w 32000) := by
          simp [save_waveform, readFile, writeFile]
        have hdlx : download_link (save_waveform enc s1 w 0 32000).2.files
            (save_waveform enc s1 w 0 32000).1 "Save .wav" =
            some ("\n        <a href=\"data:audio/wav;base64," ++
              String.mk (b64Encode (enc w 32000)) ++ "\" download=\"" ++
              pathName (save_waveform enc s1 w 0 32000).1 ++ "\">" ++
              "Save .wav" ++ " ⬇</a>\n    ") := by
          unfold download_link
          rw [hread]
          rfl
        obtain ⟨lk, hdl⟩ : ∃ lk,
            download_link (save_waveform enc s1 w 0 32000).2.files
              (save_waveform enc s1 w 0 32000).1 "Save .wav" = some lk :=
          ⟨_, hdlx⟩
        have h2 : (match readFile (save_waveform enc s1 w 0 32000).2.files
              (save_waveform enc s1 w 0 32000).1,
            download_link (save_waveform enc s1 w 0 32000).2.files
              (save_waveform enc s1 w 0 32000).1 "Save .wav" with
          | some bs, some lk2 =>
              (UIOutcome.played bs lk2, (save_waveform enc s1 w 0 32000).2)
          | _, _ => (UIOutcome.failed, (save_waveform enc s1 w 0 32000).2)) =
          (UIOutcome.played bytes link, s') := h
        rw [hread, hdl] at h2
        have h3 : ((UIOutcome.played (enc w 32000) lk,
            (save_waveform enc s1 w 0 32000).2) : UIOutcome × ProcState) =
            (UIOutcome.played bytes link, s') := h2
        injection h3 with hout hstate
        injection hout with hb hl
        subst hstate
        refine ⟨w, rfl, ?_, hb.symm, ?_⟩
        · exact hread
        · rw [← hl]
          exact hdl

/-- Witness for C8 at the concrete run `oracleTiny` / `encConst`, prompt
`"piano"`, duration `10`. -/
theorem read_back_after_write_witness :
    generate_page oracleTiny encConst initState "piano" 10 =
      (UIOutcome.played [77] linkW, stateW) ∧
    ∃ w : Waveform,
      (generate_music oracleTiny initState "piano" 10).1 = some w ∧
      readFile stateW.files (audioPath 0) = some (encConst w 32000) ∧
      [77] = encConst w 32000 ∧
      download_link stateW.files (audioPath 0) "Save .wav" = some linkW :=
  ⟨by decide,
    read_back_after_write oracleTiny encConst initState "piano" 10 [77]
      linkW stateW (by decide)⟩

/-- C9 counterexample: the pipeline does mutate the process-wide shared
model instance after the first load completes: running `generate_music`
sets generation parameters on the cached instance, so the cached handle
differs from what the load left behind. -/
theorem model_mutated_after_load :
    (generate_music oracleTiny (load_model initState).2 "piano" 10).2.cache ≠
      (load_model initState).2.cache := by decide

/-- C9 amended: after the first load, the only mutation the pipeline
performs on the shared model instance is `generate_music` setting its
generation parameters (sampling enabled, top-k 250, the input duration);
the loaded checkpoint identity is unchanged and persistence never touches
the cached handle. -/
theorem model_mutation_only_generation_params (g : GenOracle) (s : ProcState)
    (m : Model) (d : String) (dur : Nat) (h : s.cache = some m) :
    (generate_music g s d dur).2.cache =
      some (set_generation_params m true 250 dur) ∧
    (set_generation_params m true 250 dur).name = m.name ∧
    (∀ (enc : WavEncoder) (w : Waveform) (idx sr : Nat),
        (save_waveform enc s w idx sr).2.cache = s.cache) := by
  refine ⟨?_, rfl, fun enc w idx sr => rfl⟩
  simp [generate_music, load_model, h]

/-- Witness for the amended C9 at the state left by the first load. -/
theorem model_mutation_only_generation_params_witness :
    (load_model initState).2.cache =
      some (get_pretrained "facebook/musicgen-small") ∧
    ((generate_music oracleTiny (load_model initState).2 "piano" 10).2.cache =
      some (set_generation_params (get_pretrained "facebook/musicgen-small")
        true 250 10) ∧
    (set_generation_params (get_pretrained "facebook/musicgen-small")
        true 250 10).name = (get_pretrained "facebook/musicgen-small").name ∧
    (∀ (enc : WavEncoder) (w : Waveform) (idx sr : Nat),
        (save_waveform enc (load_model initState).2 w idx sr).2.cache =
          (load_model initState).2.cache)) :=
  ⟨rfl,
    model_mutation_only_generation_params oracleTiny (load_model initState).2
      (get_pretrained "facebook/musicgen-small") "piano" 10 rfl⟩

/-- C10: the Generate page always saves with the default index 0, so over
any sequence of requests in one process every file on disk sits at
`audio_output/audio_0.wav` and at most one output file ever exists. -/
theorem ui_single_output_file (g : GenOracle) (enc : WavEncoder)
    (reqs : List (String × Nat)) :
    (∀ e ∈ (run_requests g enc reqs initState).files, e.1 = audioPath 0) ∧
    (run_requests g enc reqs initState).files.length ≤ 1 :=
  run_requests_onlyIndexZero g enc reqs initState
    ⟨by simp [initState], by simp [initState]⟩

end TuneGAN
